import Mathlib

/-!
Shallow embedding of the data-cleaning and aggregation pipeline of
`understanding-aircraft-accidents-brazil.py` (a jupytext notebook built on
pandas).  The notebook's own code is a handful of one-line transforms plus
calls into pandas / CPython library routines; the embedding therefore models
both the notebook's lambdas and the exact behaviour of the library routines
they invoke, as documented for each definition below.

Numeric cells are modelled exactly (IEEE doubles idealised as rationals; the
claims under study compare nominal decimal values, never rounding artefacts).
-/

namespace Cenipa

/-- A Python `float` cell: a finite value (idealised as a rational), the
IEEE not-a-number that pandas uses as its missing marker, or an infinity. -/
inductive PyFloat where
  | num (q : ℚ)
  | nan
  | inf
  | ninf
deriving DecidableEq, Repr

/-- A Python cell value as it can occur in the dataframe columns that the
notebook's cleaning functions receive: a string, a float, an integer
(pandas integer dtype), or `None`. -/
inductive PyVal where
  | pstr (s : String)
  | pfloat (x : PyFloat)
  | pint (n : ℤ)
  | pnone
deriving DecidableEq, Repr

/-- Python `isinstance(x, str)`. -/
def PyVal.isStr : PyVal → Bool
  | .pstr _ => true
  | _ => false

/-- Python exceptions relevant to the modelled code. -/
inductive PyErr where
  | valueError
  | attributeError
deriving DecidableEq, Repr

instance {ε α : Type} [DecidableEq ε] [DecidableEq α] : DecidableEq (Except ε α) := fun x y =>
  match x, y with
  | .ok a, .ok b => if h : a = b then .isTrue (by rw [h]) else .isFalse (by simp [h])
  | .error e, .error f => if h : e = f then .isTrue (by rw [h]) else .isFalse (by simp [h])
  | .ok _, .error _ => .isFalse (by simp)
  | .error _, .ok _ => .isFalse (by simp)

/-- The characters stripped by Python's default `str.strip()` and ignored
around `float()` literals (the ASCII whitespace set; the data at hand is
ASCII so the unicode space code points are irrelevant). -/
def isPySpace (c : Char) : Bool :=
  c = ' ' || c = '\t' || c = '\n' || c = '\r' || c = '\x0b' || c = '\x0c'

/-- Strip `isPySpace` characters from both ends of a character list
(Python `str.strip()`). -/
def stripList (l : List Char) : List Char :=
  ((l.dropWhile isPySpace).reverse.dropWhile isPySpace).reverse

/-- Python `str.strip()`. -/
def pyStrip (s : String) : String :=
  String.mk (stripList s.data)

/-- Worker for `digitsCore`, structurally recursive on a fuel argument so
that concrete inputs evaluate definitionally.  The fuel handed over by
`digitsCore` is the length of the list, which bounds the recursion depth
because every step consumes at least one character. -/
def digitsGo : ℕ → List Char → List ℕ × List Char
  | 0, l => ([], l)
  | _ + 1, [] => ([], [])
  | fuel + 1, c :: cs =>
    if c.isDigit then
      let (ds, r) := digitsGo fuel cs
      ((c.toNat - 48) :: ds, r)
    else if c = '_' then
      match cs with
      | [] => ([], [c])
      | d :: cs2 =>
        if d.isDigit then
          let (ds, r) := digitsGo fuel (d :: cs2)
          (ds, r)
        else ([], c :: d :: cs2)
    else ([], c :: cs)

/-- A run of decimal digits in which single underscores may stand between two
digits (the CPython number-literal rule, PEP 515): returns the digit values
and the unconsumed rest.  A leading, trailing or doubled underscore is not
consumed, so it ends up in the rest and makes the whole literal fail. -/
def digitsCore (l : List Char) : List ℕ × List Char :=
  digitsGo l.length l

/-- Digit list to the natural number it denotes (most significant first). -/
def natOfDigits (ds : List ℕ) : ℕ :=
  ds.foldl (fun a d => a * 10 + d) 0

/-- Exponent part of a CPython float literal: optional sign, then at least
one digit. -/
def parseExp (l : List Char) : Option (ℤ × List Char) :=
  let (neg, r) := match l with
    | '+' :: t => (false, t)
    | '-' :: t => (true, t)
    | t => (false, t)
  match digitsCore r with
  | ([], _) => none
  | (ds, rest) => some (if neg then -(natOfDigits ds : ℤ) else (natOfDigits ds : ℤ), rest)

/-- Unsigned CPython float literal: `digits [. digits]` or `. digits`
(at least one digit overall), then an optional `e`/`E` exponent. -/
def parseUnsigned (l : List Char) : Option (ℚ × List Char) :=
  let (ip, r1) := digitsCore l
  let (fp, r2) := match r1 with
    | '.' :: rest => digitsCore rest
    | _ => ([], r1)
  if ip.isEmpty && fp.isEmpty then none
  else
    let base : ℚ :=
      if fp.isEmpty then (natOfDigits ip : ℚ)
      else (natOfDigits (ip ++ fp) : ℚ) / (10 : ℚ) ^ fp.length
    match r2 with
    | 'e' :: rest =>
      match parseExp rest with
      | some (e, rest2) => some (base * (10 : ℚ) ^ e, rest2)
      | none => none
    | 'E' :: rest =>
      match parseExp rest with
      | some (e, rest2) => some (base * (10 : ℚ) ^ e, rest2)
      | none => none
    | _ => some (base, r2)

/-- CPython `float(str)`: strip surrounding whitespace, optional sign, then
either a case-insensitive `inf`/`infinity`/`nan` or a float literal consuming
the whole remainder.  `none` models the `ValueError` raised otherwise. -/
def float_of_string (s : String) : Option PyFloat :=
  let l := stripList s.data
  let (neg, r) := match l with
    | '+' :: t => (false, t)
    | '-' :: t => (true, t)
    | t => (false, t)
  let low := r.map Char.toLower
  if low = "inf".data || low = "infinity".data then
    some (if neg then .ninf else .inf)
  else if low = "nan".data then some .nan
  else
    match parseUnsigned r with
    | some (q, []) => some (.num (if neg then -q else q))
    | _ => none

/-- Model of `locale.delocalize` under the `en_US.UTF-8` locale installed by the
notebook's `locale.setlocale(locale.LC_ALL, 'en_US.UTF-8')`: in that locale
`thousands_sep` is `","` and `decimal_point` is `"."`, so delocalizing
removes every comma and leaves the dots alone. -/
def delocalize (s : String) : String :=
  String.mk (s.data.filter (fun c => c ≠ ','))

/-- Model of `locale.atof` under the `en_US.UTF-8` locale: `float(delocalize(s))`. -/
def locale_atof (s : String) : Option PyFloat :=
  float_of_string (delocalize s)

/-- The notebook's `clean_float`:

```python
def clean_float(original: str) -> float:
    if isinstance(original, float):
        return original
    try:
        return locale.atof(original)
    except ValueError:
        return np.NaN
```

A float cell (NaN included) is returned unchanged.  A string cell is parsed
with `locale.atof`; the `ValueError` of an unparsable string is caught and
yields NaN.  Any other cell (an int, `None`) reaches
`locale.atof`, whose `delocalize` calls `.replace` on the non-string value
and raises `AttributeError` — which the `except ValueError` does not catch. -/
def clean_float : PyVal → Except PyErr PyFloat
  | .pfloat x => .ok x
  | .pstr s =>
    match locale_atof s with
    | some x => .ok x
    | none => .ok .nan
  | .pint _ => .error .attributeError
  | .pnone => .error .attributeError


/-- A Python `datetime.datetime` value (naive, to second precision — the
only format used by the notebook carries no finer fields). -/
structure PyDateTime where
  year : ℕ
  month : ℕ
  day : ℕ
  hour : ℕ
  minute : ℕ
  second : ℕ
deriving DecidableEq, Repr

/-- Python `datetime` comparison (`<=`): lexicographic on the components. -/
def PyDateTime.ble (a b : PyDateTime) : Bool :=
  if a.year ≠ b.year then a.year < b.year
  else if a.month ≠ b.month then a.month < b.month
  else if a.day ≠ b.day then a.day < b.day
  else if a.hour ≠ b.hour then a.hour < b.hour
  else if a.minute ≠ b.minute then a.minute < b.minute
  else a.second ≤ b.second

/-- Gregorian leap-year rule, as in CPython's `datetime` module. -/
def isLeapYear (y : ℕ) : Bool :=
  y % 4 = 0 && (y % 100 ≠ 0 || y % 400 = 0)

/-- Days in a month, as validated by the `datetime.datetime` constructor. -/
def daysInMonth (y m : ℕ) : ℕ :=
  if m = 2 then (if isLeapYear y then 29 else 28)
  else if m = 4 || m = 6 || m = 9 || m = 11 then 30
  else 31

/-- The range checks of the `datetime.datetime` constructor (`MINYEAR = 1`,
`MAXYEAR = 9999`); values outside the ranges raise `ValueError`, modelled by
`none`.  In particular a second of 60 or 61, which the `%S` directive's regex
still matches, is rejected here — exactly as in CPython, where
`datetime.strptime` builds the `datetime` from the matched fields. -/
def mkDatetime (y m d hh mi ss : ℕ) : Option PyDateTime :=
  if 1 ≤ y ∧ y ≤ 9999 ∧ 1 ≤ m ∧ m ≤ 12 ∧ 1 ≤ d ∧ d ≤ daysInMonth y m
      ∧ hh ≤ 23 ∧ mi ≤ 59 ∧ ss ≤ 59 then
    some ⟨y, m, d, hh, mi, ss⟩
  else none

/-- Digit value of a character (used only under `Char.isDigit`). -/
def digitVal (c : Char) : ℕ := c.toNat - 48

/-!
The component parsers below transcribe the regular expressions CPython's
`_strptime.TimeRE` compiles for each directive of the format
`'%d/%m/%Y %H:%M:%S'` — the only format the notebook uses.  Regex
alternation is ordered; because every continuation after a two-character
alternative here starts with a non-digit character (`/`, `:`, whitespace or
end of input) while the one-character alternatives are followed by a digit in
exactly the cases the two-character alternatives cover, ordered choice
without backtracking accepts the same strings as the backtracking regex.
-/

/-- Directive `%d` — regex `3[01]|[12]\d|0[1-9]|[1-9]`. -/
def parseDay : List Char → Option (ℕ × List Char)
  | c1 :: c2 :: rest =>
    if c1 = '3' && (c2 = '0' || c2 = '1') then some (30 + digitVal c2, rest)
    else if (c1 = '1' || c1 = '2') && c2.isDigit then
      some (10 * digitVal c1 + digitVal c2, rest)
    else if c1 = '0' && ('1' ≤ c2 && c2 ≤ '9') then some (digitVal c2, rest)
    else if '1' ≤ c1 && c1 ≤ '9' then some (digitVal c1, c2 :: rest)
    else none
  | [c1] => if '1' ≤ c1 && c1 ≤ '9' then some (digitVal c1, []) else none
  | [] => none

/-- Directive `%m` — regex `1[0-2]|0[1-9]|[1-9]`. -/
def parseMonth : List Char → Option (ℕ × List Char)
  | c1 :: c2 :: rest =>
    if c1 = '1' && ('0' ≤ c2 && c2 ≤ '2') then some (10 + digitVal c2, rest)
    else if c1 = '0' && ('1' ≤ c2 && c2 ≤ '9') then some (digitVal c2, rest)
    else if '1' ≤ c1 && c1 ≤ '9' then some (digitVal c1, c2 :: rest)
    else none
  | [c1] => if '1' ≤ c1 && c1 ≤ '9' then some (digitVal c1, []) else none
  | [] => none

/-- Directive `%Y` — regex `\d\d\d\d` (exactly four digits). -/
def parseYear : List Char → Option (ℕ × List Char)
  | c1 :: c2 :: c3 :: c4 :: rest =>
    if c1.isDigit && c2.isDigit && c3.isDigit && c4.isDigit then
      some (((digitVal c1 * 10 + digitVal c2) * 10 + digitVal c3) * 10 + digitVal c4, rest)
    else none
  | _ => none

/-- Directive `%H` — regex `2[0-3]|[0-1]\d|\d`. -/
def parseHour : List Char → Option (ℕ × List Char)
  | c1 :: c2 :: rest =>
    if c1 = '2' && ('0' ≤ c2 && c2 ≤ '3') then some (20 + digitVal c2, rest)
    else if (c1 = '0' || c1 = '1') && c2.isDigit then
      some (10 * digitVal c1 + digitVal c2, rest)
    else if c1.isDigit then some (digitVal c1, c2 :: rest)
    else none
  | [c1] => if c1.isDigit then some (digitVal c1, []) else none
  | [] => none

/-- Directive `%M` — regex `[0-5]\d|\d`. -/
def parseMinute : List Char → Option (ℕ × List Char)
  | c1 :: c2 :: rest =>
    if ('0' ≤ c1 && c1 ≤ '5') && c2.isDigit then
      some (10 * digitVal c1 + digitVal c2, rest)
    else if c1.isDigit then some (digitVal c1, c2 :: rest)
    else none
  | [c1] => if c1.isDigit then some (digitVal c1, []) else none
  | [] => none

/-- Directive `%S` — regex `6[0-1]|[0-5]\d|\d` (leap seconds are matched by the regex
and rejected later by the `datetime` constructor). -/
def parseSecond : List Char → Option (ℕ × List Char)
  | c1 :: c2 :: rest =>
    if c1 = '6' && (c2 = '0' || c2 = '1') then some (60 + digitVal c2, rest)
    else if ('0' ≤ c1 && c1 ≤ '5') && c2.isDigit then
      some (10 * digitVal c1 + digitVal c2, rest)
    else if c1.isDigit then some (digitVal c1, c2 :: rest)
    else none
  | [c1] => if c1.isDigit then some (digitVal c1, []) else none
  | [] => none

/-- A literal character of the format. -/
def parseLit (ch : Char) : List Char → Option (List Char)
  | c :: rest => if c = ch then some rest else none
  | [] => none

/-- Whitespace in a `strptime` format is compiled to `\s+`: at least one
whitespace character, consuming the whole run. -/
def parseWs1 : List Char → Option (List Char)
  | c :: rest => if isPySpace c then some (rest.dropWhile isPySpace) else none
  | [] => none

/-- Model of `datetime.strptime(s, '%d/%m/%Y %H:%M:%S')`: the directives in sequence,
requiring the whole string to be consumed (`strptime` raises `ValueError` on
unconverted trailing data), then the `datetime` constructor's range checks.
`none` models the `ValueError`. -/
def strptime_dmY_HMS (s : String) : Option PyDateTime := do
  let (d, r1) ← parseDay s.data
  let r2 ← parseLit '/' r1
  let (m, r3) ← parseMonth r2
  let r4 ← parseLit '/' r3
  let (y, r5) ← parseYear r4
  let r6 ← parseWs1 r5
  let (hh, r7) ← parseHour r6
  let r8 ← parseLit ':' r7
  let (mi, r9) ← parseMinute r8
  let r10 ← parseLit ':' r9
  let (ss, r11) ← parseSecond r10
  if r11 = [] then mkDatetime y m d hh mi ss else none

/-- The `ocorrencia_data` cleanup of notebook lines 75–80:

```python
lambda row: datetime.strptime(
    row['ocorrencia_dia'] + ' ' +
    (row['ocorrencia_hora'] if isinstance(row['ocorrencia_hora'], str) else '00:00:00'),
    '%d/%m/%Y %H:%M:%S')
```

The date cell is a string; the time cell is substituted by the literal
`'00:00:00'` whenever it is not a string (pandas NaN, `None`, a number). -/
def ocorrencia_data (dia : String) (hora : PyVal) : Option PyDateTime :=
  strptime_dmY_HMS
    (dia ++ " " ++ (match hora with | .pstr s => s | _ => "00:00:00"))

/-- The decimal digit character of `n < 10`. -/
def digitChar (n : ℕ) : Char := Char.ofNat (48 + n)

/-- Two-digit zero-padded decimal rendering (`dd`, `mm`). -/
def pad2 (n : ℕ) : String := String.mk [digitChar (n / 10), digitChar (n % 10)]

/-- Four-digit zero-padded decimal rendering (`yyyy`). -/
def pad4 (n : ℕ) : String :=
  String.mk [digitChar (n / 1000), digitChar (n / 100 % 10),
    digitChar (n / 10 % 10), digitChar (n % 10)]

/-- A date string in the `dd/mm/yyyy` form the CENIPA CSV delivers. -/
def renderDate (d m y : ℕ) : String := pad2 d ++ "/" ++ pad2 m ++ "/" ++ pad4 y

/-- A calendar-valid day/month/year combination (the dates for which the
`dd/mm/yyyy` string is well-formed in the sense of the spec). -/
def ValidDate (y m d : ℕ) : Prop :=
  1 ≤ y ∧ y ≤ 9999 ∧ 1 ≤ m ∧ m ≤ 12 ∧ 1 ≤ d ∧ d ≤ daysInMonth y m

instance (y m d : ℕ) : Decidable (ValidDate y m d) := by
  unfold ValidDate; infer_instance


/-- Python `str.split(sep)` with a one-character separator, on character
lists: splits at every occurrence of the separator, producing one (possibly
empty) segment more than there are separators; `''.split('|') == ['']`. -/
def splitChar (sep : Char) : List Char → List (List Char)
  | [] => [[]]
  | c :: cs =>
    match splitChar sep cs with
    | [] => [[]]
    | g :: gs => if c = sep then [] :: g :: gs else (c :: g) :: gs

/-- The category cleanup of notebook lines 97–98:
`df_tipo_ocorrencia['ocorrencia_tipo_categoria'].apply(lambda t: t.split('|')[0].strip())` —
the segment before the first pipe (the whole string when there is no pipe),
stripped of surrounding whitespace. -/
def ocorrencia_tipo_categoria (t : String) : String :=
  pyStrip (String.mk ((splitChar '|' t.data).headD []))


/-- One row of the cleaned occurrence table, restricted to the columns the
geospatial cell consumes (classification, cleaned timestamp, cleaned
coordinates, city). -/
structure OccurrenceRow where
  classificacao : String
  data : PyDateTime
  latitude : PyFloat
  longitude : PyFloat
  cidade : String
deriving DecidableEq, Repr

/-- pandas `notna` on a float cell: false exactly on NaN. -/
def notna : PyFloat → Bool
  | .nan => false
  | _ => true

/-- Notebook line 161:
`accidents = df_ocorrencia[df_ocorrencia.ocorrencia_classificacao == 'ACIDENTE']`. -/
def accidents (rows : List OccurrenceRow) : List OccurrenceRow :=
  rows.filter (fun r => r.classificacao = "ACIDENTE")

/-- Notebook line 164:
`accidents_2020 = accidents[accidents.ocorrencia_data >= datetime(2020,1,1)]`,
with the caller-supplied date lower bound abstracted as `bound`. -/
def accidents_since (rows : List OccurrenceRow) (bound : PyDateTime) :
    List OccurrenceRow :=
  (accidents rows).filter (fun r => bound.ble r.data)

/-- The folium marker loop of notebook lines 173–179: one
`(latitude, longitude, popup-label)` triple per row of
`accidents_2020[accidents_2020.ocorrencia_latitude.notna()]`.  Note that the
row filter consults the latitude only — the longitude is never tested. -/
def geo_markers (rows : List OccurrenceRow) (bound : PyDateTime) :
    List (PyFloat × PyFloat × String) :=
  ((accidents_since rows bound).filter (fun r => notna r.latitude)).map
    (fun r => (r.latitude, r.longitude, r.cidade))

/-- Zero-based absolute month number of a timestamp (months since year 0);
the bucket key of a calendar-month `pd.Grouper`. -/
def monthIndex (t : PyDateTime) : ℕ := t.year * 12 + (t.month - 1)

/-- The pandas bin label of month bucket `i` under `freq='M'` (month-END
frequency): the LAST calendar day of the month, at midnight. -/
def monthEndLabel (i : ℕ) : PyDateTime :=
  ⟨i / 12, i % 12 + 1, daysInMonth (i / 12) (i % 12 + 1), 0, 0, 0⟩

/-- Smallest month bucket of a timestamp column (junk 0 on the empty list). -/
def minMonth (col : List PyDateTime) : ℕ := ((col.map monthIndex).min?).getD 0

/-- Largest month bucket of a timestamp column (junk 0 on the empty list). -/
def maxMonth (col : List PyDateTime) : ℕ := ((col.map monthIndex).max?).getD 0

/-- Number of rows of the column falling in month bucket `i`. -/
def monthCount (col : List PyDateTime) (i : ℕ) : ℕ :=
  (col.filter (fun t => monthIndex t = i)).length

/-- Notebook line 110:
`df_ocorrencia.groupby(pd.Grouper(key='ocorrencia_data', freq='M')).codigo_ocorrencia.count()`.
Grouping a dataframe on a single time `Grouper` bins the rows into the
complete `date_range` of month-end labels spanning the minimum to the
maximum observed timestamp; empty bins are kept and count 0 (resample-like
behaviour).  `count` counts the non-null `codigo_ocorrencia` cells per bin,
and `codigo_ocorrencia` is the never-null primary key, so the count is the
number of rows in the bin. -/
def occurencies_in_time (col : List PyDateTime) : List (PyDateTime × ℕ) :=
  if col.isEmpty then []
  else
    (List.range (maxMonth col + 1 - minMonth col)).map
      (fun k => (monthEndLabel (minMonth col + k), monthCount col (minMonth col + k)))


/-- Descending-by-count comparison modelling
`sort_values(ascending=False)` on a counts Series. -/
def countGe {α : Type} (p q : α × ℕ) : Prop := q.2 ≤ p.2

instance {α : Type} : DecidableRel (@countGe α) := fun _ _ => Nat.decLe _ _

instance {α : Type} : IsTotal (α × ℕ) countGe := ⟨fun a b => le_total b.2 a.2⟩

instance {α : Type} : IsTrans (α × ℕ) countGe := ⟨fun _ _ _ h1 h2 => le_trans h2 h1⟩

/-- pandas `Series.value_counts()` (notebook line 124 and many others).
Internally pandas collects the distinct values and their counts from a hash
table and then sorts by count.  The iteration order of that hash table is
NOT the order of first appearance in the column: it is the bucket order of
the underlying khash table, which for object (string) columns depends on
`PyObject_Hash` — randomized per process for strings.  We therefore model
the operation as parameterized by `keyOrder`, an arbitrary enumeration of
the distinct values standing for the hash-table iteration order; the sort by
descending count is modelled as a stable sort, so tied counts stay in
`keyOrder`.  (pandas' tie order differs in inessential detail — a
non-stable argsort reversed — but every theorem below about the sorted
output holds for any tie rule, and the dependence of tie order on
`keyOrder` is exactly the point at issue.) -/
def value_counts {α : Type} [DecidableEq α] (keyOrder : List α) (col : List α) :
    List (α × ℕ) :=
  List.insertionSort countGe
    (keyOrder.map (fun k => (k, (col.filter (fun x => x = k)).length)))

/-- The result record of pandas `Series.describe()` on a numeric column.
`none` models NaN in every field.  The reported standard deviation is the
square root of the sample variance recorded in `var`, so std is NaN exactly
when `var = none`, and std = 0 exactly when `var = some 0`. -/
structure DescribeResult where
  count : ℕ
  mean : Option ℚ
  var : Option ℚ
  min : Option ℚ
  q25 : Option ℚ
  q50 : Option ℚ
  q75 : Option ℚ
  max : Option ℚ
deriving DecidableEq, Repr

/-- Ascending sort of the values (numpy's quantile machinery works on the
sorted order statistics). -/
def sortQ (xs : List ℚ) : List ℚ := List.insertionSort (· ≤ ·) xs

/-- The linear-interpolation quantile of numpy/pandas (the default of
`describe`): the value at fractional position `p * (n - 1)` of the sorted
values, interpolating linearly between the two neighbouring order
statistics. -/
def quantile (xs : List ℚ) (p : ℚ) : ℚ :=
  let s := sortQ xs
  let pos : ℚ := p * ((s.length : ℚ) - 1)
  let i : ℕ := pos.floor.toNat
  let lower := s.getD i 0
  let upper := s.getD (i + 1) lower
  lower + (pos - (i : ℚ)) * (upper - lower)

/-- pandas `Series.describe()` on a numeric column (notebook lines 338, 363,
474, 490), given the column's defined (non-NaN) values: count, mean, sample
variance (`ddof = 1`; `none` — i.e. NaN — when there are fewer than two
values, since the divisor is `n - 1`), minimum, the three quartiles by
linear interpolation, and maximum. -/
def describe (xs : List ℚ) : DescribeResult :=
  let n := xs.length
  let μ : ℚ := xs.sum / n
  { count := n
  , mean := if n = 0 then none else some μ
  , var :=
      if 2 ≤ n then some (((xs.map (fun x => (x - μ) ^ 2)).sum) / ((n : ℚ) - 1))
      else none
  , min := (sortQ xs).head?
  , q25 := if n = 0 then none else some (quantile xs (1/4))
  , q50 := if n = 0 then none else some (quantile xs (1/2))
  , q75 := if n = 0 then none else some (quantile xs (3/4))
  , max := (sortQ xs).getLast? }

/-- The defined (finite, non-NaN) values of a float column — what pandas'
NaN-dropping leaves for `describe` (the columns at hand contain no
infinities). -/
def definedValues (col : List PyFloat) : List ℚ :=
  col.filterMap (fun x => match x with | .num q => some q | _ => none)

/-- Python string `<`: strict lexicographic comparison of code points. -/
def pyStrLt (s t : String) : Prop := List.Lex (· < ·) s.data t.data

/-- Python string `<=`. -/
def pyStrLe (s t : String) : Prop := pyStrLt s t ∨ s = t

instance : DecidableRel pyStrLt := fun s t => List.Lex.decidableRel _ s.data t.data

instance : DecidableRel pyStrLe := fun _ _ => instDecidableOr

/-- Lexicographic `≤` on `(month bucket, class)` group keys — the order in
which pandas emits the groups (`sort=True` default; strings compare by code
points, as in Python). -/
def keyLe (a b : ℕ × String) : Prop :=
  a.1 < b.1 ∨ (a.1 = b.1 ∧ pyStrLe a.2 b.2)

instance : DecidableRel keyLe := fun a b => by
  unfold keyLe; infer_instance

instance : IsTotal (ℕ × String) keyLe := by
  constructor
  intro a b
  rcases Nat.lt_trichotomy a.1 b.1 with h | h | h
  · exact Or.inl (Or.inl h)
  · rcases (List.Lex.isTrichotomous (α := Char) (· < ·)).1 a.2.data b.2.data with h2 | h2 | h2
    · exact Or.inl (Or.inr ⟨h, Or.inl h2⟩)
    · exact Or.inl (Or.inr ⟨h, Or.inr (congrArg String.mk h2)⟩)
    · exact Or.inr (Or.inr ⟨h.symm, Or.inl h2⟩)
  · exact Or.inr (Or.inl h)

instance : IsTrans (ℕ × String) keyLe := by
  constructor
  rintro a b c (h1 | ⟨e1, h1⟩) (h2 | ⟨e2, h2⟩)
  · exact Or.inl (h1.trans h2)
  · exact Or.inl (e2 ▸ h1)
  · exact Or.inl (e1 ▸ h2)
  · refine Or.inr ⟨e1.trans e2, ?_⟩
    rcases h1 with h1 | h1
    · rcases h2 with h2 | h2
      · exact Or.inl (trans_of (List.Lex ((· < ·) : Char → Char → Prop)) h1 h2)
      · exact Or.inl (h2 ▸ h1)
    · exact h1 ▸ h2

/-- Notebook lines 138–144:

```python
df_ocorrencia.set_index('ocorrencia_data')
  .groupby([pd.Grouper(freq='M'), 'ocorrencia_classificacao'])
  .codigo_ocorrencia.count()
```

A multi-key groupby mixing a time `Grouper` with an ordinary column emits
one row per OBSERVED `(month bin, class)` combination only — unlike the
single-key case, empty bins are compressed away and no zero-count rows
appear (pandas fills the full product only for categorical groupers with
`observed=False`).  Keys are sorted lexicographically; each month bin is
labelled by its month-end timestamp. -/
def occurrence_in_time_by_class (rows : List (PyDateTime × String)) :
    List ((PyDateTime × String) × ℕ) :=
  (List.insertionSort keyLe ((rows.map (fun r => (monthIndex r.1, r.2))).dedup)).map
    (fun k => ((monthEndLabel k.1, k.2),
      (rows.filter (fun r => (monthIndex r.1, r.2) = k)).length))

/-- Concrete sanity checks evaluating the embedded cleaning pipeline against
the behaviour of the CPython/pandas routines it models. -/
theorem model_sanity_checks :
    clean_float (.pstr "-15.24") = .ok (.num (-((1524 : ℚ) / 10 ^ 2))) ∧
    clean_float (.pstr "abc") = .ok .nan ∧
    strptime_dmY_HMS "15/03/2020 14:30:05" = some ⟨2020, 3, 15, 14, 30, 5⟩ ∧
    strptime_dmY_HMS "1/1/2020 0:0:0" = some ⟨2020, 1, 1, 0, 0, 0⟩ ∧
    strptime_dmY_HMS "31/02/2020 00:00:00" = none ∧
    strptime_dmY_HMS "01/01/2020 00:00:61" = none ∧
    ocorrencia_tipo_categoria "ACIDENTE | outros | texto" = "ACIDENTE" ∧
    ocorrencia_tipo_categoria "  SEM CATEGORIA  " = "SEM CATEGORIA" ∧
    occurencies_in_time [⟨2020, 1, 15, 10, 0, 0⟩, ⟨2020, 3, 10, 0, 0, 0⟩] =
      [(⟨2020, 1, 31, 0, 0, 0⟩, 1), (⟨2020, 2, 29, 0, 0, 0⟩, 0), (⟨2020, 3, 31, 0, 0, 0⟩, 1)] :=
  ⟨rfl, rfl, rfl, rfl, rfl, rfl, rfl, rfl, rfl⟩

/-- Claim C9 (counterexample): the claim quantifies over every cell that is
already a numeric value, but only float cells are returned unchanged.  The
integer cell 3 — numeric — is not returned unchanged: `isinstance(3, float)`
is false, so `locale.atof(3)` is called, whose `delocalize` invokes
`.replace` on the integer and raises `AttributeError`, which the
`except ValueError` does not catch. -/
theorem C9_counterexample :
    clean_float (.pint 3) = .error .attributeError ∧
    clean_float (.pint 3) ≠ .ok (.num 3) := by
  refine ⟨rfl, ?_⟩
  rw [show clean_float (.pint 3) = .error .attributeError from rfl]
  simp

/-- Claim C9 (amended): every cell that is already a float — NaN included —
is returned unchanged by `clean_float`; numeric cells of non-float type
(integers) instead raise `AttributeError`. -/
theorem C9_amended :
    (∀ x : PyFloat, clean_float (.pfloat x) = .ok x) ∧
    (∀ n : ℤ, clean_float (.pint n) = .error .attributeError) :=
  ⟨fun _ => rfl, fun _ => rfl⟩

/-- Claim C10 (confirmed): when the time cell is a string it is used
verbatim — the midnight substitution happens only for non-string cells — so
a present-but-malformed time string like `"25:00"` or `"noon"` makes
`strptime` fail on the merged string (`none`, modelling the `ValueError`),
even though the same date parses fine with an absent time. -/
theorem C10_holds :
    (∀ dia t : String,
      ocorrencia_data dia (.pstr t) = strptime_dmY_HMS (dia ++ " " ++ t)) ∧
    ocorrencia_data "01/01/2020" (.pstr "25:00") = none ∧
    ocorrencia_data "01/01/2020" (.pstr "noon") = none ∧
    ocorrencia_data "01/01/2020" (.pstr "25:00:00") = none ∧
    ocorrencia_data "01/01/2020" .pnone = some ⟨2020, 1, 1, 0, 0, 0⟩ :=
  ⟨fun _ _ => rfl, rfl, rfl, rfl, rfl⟩

/-- Claim C5 (counterexample): the notebook sets the `en_US.UTF-8` locale,
in which the comma is the THOUSANDS separator, not the decimal separator:
`locale.atof("-15,24")` strips the comma and returns `-1524.0`, not
`-15.24`. -/
theorem C5_counterexample :
    clean_float (.pstr "-15,24") = .ok (.num (-1524)) ∧
    clean_float (.pstr "-15,24") ≠ .ok (.num (-1524 / 100)) := by
  refine ⟨rfl, ?_⟩
  rw [show clean_float (.pstr "-15,24") = .ok (.num (-1524)) from rfl]
  simp only [ne_eq, Except.ok.injEq, PyFloat.num.injEq]
  norm_num

/-- Claim C5 (amended): under the locale the code actually installs
(`en_US.UTF-8`), `"-15,24"` parses to `-1524` (comma dropped as a thousands
separator); any string `locale.atof` cannot parse yields the NaN missing
marker; and on string input `clean_float` always returns a value — it never
raises. -/
theorem C5_amended (s : String) (h : locale_atof s = none) :
    clean_float (.pstr "-15,24") = .ok (.num (-1524)) ∧
    clean_float (.pstr s) = .ok .nan ∧
    (∀ t : String, ∃ r : PyFloat, clean_float (.pstr t) = .ok r) := by
  refine ⟨rfl, ?_, ?_⟩
  · simp [clean_float, h]
  · intro t
    rcases e : locale_atof t with _ | x
    · exact ⟨.nan, by simp [clean_float, e]⟩
    · exact ⟨x, by simp [clean_float, e]⟩

/-- Claim C5 witness: the hypotheses of `C5_amended` hold at `s = "abc"`. -/
theorem C5_amended_witness :
    locale_atof "abc" = none ∧
    (clean_float (.pstr "-15,24") = .ok (.num (-1524)) ∧
     clean_float (.pstr "abc") = .ok .nan ∧
     (∀ t : String, ∃ r : PyFloat, clean_float (.pstr t) = .ok r)) :=
  ⟨rfl, C5_amended "abc" rfl⟩

/-- Claim C1 (counterexample): a row whose latitude is defined but whose
longitude is NaN, with classification `'ACIDENTE'` and timestamp above the
bound, is emitted by the folium marker loop — the code filters on
`ocorrencia_latitude.notna()` only — so a triple with an undefined
coordinate does appear in the output, contradicting both the "both
coordinates defined" characterisation and "no row with an undefined
coordinate appears". -/
theorem C1_counterexample :
    geo_markers [⟨"ACIDENTE", ⟨2020, 6, 1, 0, 0, 0⟩, .num 1, .nan, "X"⟩]
        ⟨2020, 1, 1, 0, 0, 0⟩ = [(.num 1, .nan, "X")] ∧
    notna .nan = false :=
  ⟨rfl, rfl⟩

/-- Claim C1 (amended): a row qualifies for the geospatial view exactly when
its classification is `'ACIDENTE'`, its timestamp is at or above the
caller-supplied bound, and its LATITUDE is defined — the longitude is not
consulted; each qualifying row contributes its
`(latitude, longitude, city)` triple, in table order. -/
theorem C1_amended (rows : List OccurrenceRow) (bound : PyDateTime) :
    geo_markers rows bound =
      (rows.filter (fun r =>
        decide (r.classificacao = "ACIDENTE") && bound.ble r.data && notna r.latitude)).map
        (fun r => (r.latitude, r.longitude, r.cidade)) := by
  unfold geo_markers accidents_since accidents
  rw [List.filter_filter, List.filter_filter]
  have h : ∀ r : OccurrenceRow,
      (notna r.latitude && bound.ble r.data && decide (r.classificacao = "ACIDENTE")) =
      (decide (r.classificacao = "ACIDENTE") && bound.ble r.data && notna r.latitude) := by
    intro r
    cases notna r.latitude <;> cases bound.ble r.data <;>
      cases decide (r.classificacao = "ACIDENTE") <;> rfl
  simp only [h]

/-- Claim C4 (counterexample): `describe` of a column with the single
defined value 5 reports a sample standard deviation (ddof = 1) of NaN — the
variance field is `none`, not `some 0` — whereas the claim demands a
standard deviation of 0 (`var = some 0`, since the reported std is √var). -/
theorem C4_counterexample :
    (describe [(5 : ℚ)]).var = none ∧ (describe [(5 : ℚ)]).var ≠ some 0 := by
  refine ⟨rfl, ?_⟩
  rw [show (describe [(5 : ℚ)]).var = none from rfl]
  simp

/-- Claim C4 (amended): for a column whose defined values are exactly `[v]`,
`describe` reports count 1, mean `v`, all three quartiles `v` (and min and
max `v`) — but the standard deviation is NaN (`var = none`), not 0, because
pandas uses the sample deviation with `ddof = 1` and the divisor `n - 1`
vanishes. -/
theorem C4_amended (col : List PyFloat) (v : ℚ) (h : definedValues col = [v]) :
    describe (definedValues col) =
      { count := 1, mean := some v, var := none, min := some v,
        q25 := some v, q50 := some v, q75 := some v, max := some v } := by
  rw [h]
  have hq : ∀ p : ℚ, quantile [v] p = v := by
    intro p
    simp only [quantile, sortQ, List.insertionSort, List.orderedInsert,
      List.length_cons, List.length_nil]
    norm_num [Rat.floor]
  unfold describe
  norm_num [hq, sortQ, List.insertionSort]

/-- Claim C4 witness: the hypothesis of `C4_amended` holds for the column
`[NaN, 5.0, NaN]`. -/
theorem C4_amended_witness :
    definedValues [PyFloat.nan, PyFloat.num 5, PyFloat.nan] = [(5 : ℚ)] ∧
    describe (definedValues [PyFloat.nan, PyFloat.num 5, PyFloat.nan]) =
      { count := 1, mean := some 5, var := none, min := some 5,
        q25 := some 5, q50 := some 5, q75 := some 5, max := some 5 } :=
  ⟨rfl, C4_amended _ 5 rfl⟩

theorem splitChar_head (sep : Char) (l : List Char) :
    ∃ gs, splitChar sep l = (l.takeWhile (fun c => c != sep)) :: gs := by
  induction l with
  | nil => exact ⟨[], rfl⟩
  | cons c cs ih =>
    obtain ⟨gs, hgs⟩ := ih
    by_cases hc : c = sep
    · refine ⟨cs.takeWhile (fun c => c != sep) :: gs, ?_⟩
      unfold splitChar
      rw [hgs]
      simp [hc]
    · refine ⟨gs, ?_⟩
      unfold splitChar
      rw [hgs]
      simp [hc]

theorem stripList_eq_nil_iff (l : List Char) :
    stripList l = [] ↔ ∀ c ∈ l, isPySpace c = true := by
  unfold stripList
  constructor
  · intro h c hc
    rw [List.reverse_eq_nil_iff, List.dropWhile_eq_nil_iff] at h
    have hm : c ∈ l.takeWhile isPySpace ++ l.dropWhile isPySpace := by
      rw [List.takeWhile_append_dropWhile]; exact hc
    rcases List.mem_append.1 hm with h1 | h1
    · exact List.mem_takeWhile_imp h1
    · exact h _ (List.mem_reverse.2 h1)
  · intro h
    rw [List.dropWhile_eq_nil_iff.2 h]
    rfl

theorem ocorrencia_tipo_categoria_eq_empty_iff (t : String) :
    ocorrencia_tipo_categoria t = "" ↔
      ∀ c ∈ t.data.takeWhile (fun c => c != '|'), isPySpace c = true := by
  obtain ⟨gs, hgs⟩ := splitChar_head '|' t.data
  unfold ocorrencia_tipo_categoria pyStrip
  rw [hgs]
  simp only [List.headD_cons]
  constructor
  · intro h
    refine (stripList_eq_nil_iff _).1 ?_
    have h2 := congrArg String.data h
    simpa using h2
  · intro h
    rw [(stripList_eq_nil_iff _).2 h]

/-- Claim C6 (counterexample): the derived category is NOT always non-empty:
for the empty string — and for any raw value whose text before the first
pipe is all whitespace — `t.split('|')[0].strip()` is the empty string. -/
theorem C6_counterexample :
    ocorrencia_tipo_categoria "" = "" ∧
    ocorrencia_tipo_categoria " | ACIDENTE" = "" :=
  ⟨rfl, rfl⟩

/-- Claim C6 (amended): the derived category is non-empty if and only if the
segment of the raw value before the first pipe contains at least one
non-whitespace character; otherwise (empty string, leading pipe,
whitespace-only prefix) it is empty. -/
theorem C6_amended (t : String) :
    ocorrencia_tipo_categoria t ≠ "" ↔
      ∃ c ∈ t.data.takeWhile (fun c => c != '|'), isPySpace c = false := by
  rw [ne_eq, ocorrencia_tipo_categoria_eq_empty_iff]
  push_neg
  simp [Bool.not_eq_true]

theorem monthIndex_monthEndLabel (i : ℕ) : monthIndex (monthEndLabel i) = i := by
  unfold monthIndex monthEndLabel
  simp only []
  omega

theorem nat_getD_min?_le_getD_max? (l : List ℕ) (hl : l ≠ []) :
    l.min?.getD 0 ≤ l.max?.getD 0 := by
  rcases hmin : l.min? with _ | a
  · rw [List.min?_eq_none_iff] at hmin; exact absurd hmin hl
  rcases hmax : l.max? with _ | b
  · rw [List.max?_eq_none_iff] at hmax; exact absurd hmax hl
  haveI : Std.Antisymm ((· ≤ ·) : ℕ → ℕ → Prop) := ⟨fun h1 h2 => Nat.le_antisymm h1 h2⟩
  have ha : a ∈ l := List.min?_mem (fun x y => min_choice x y) hmin
  have hb := (List.max?_eq_some_iff Nat.le_refl (fun x y => max_choice x y)
    (fun _ _ _ => max_le_iff)).1 hmax
  simpa using hb.2 a ha

/-- Claim C2 (counterexample): the month buckets are labelled with the month
END — `freq='M'` is pandas' month-end frequency — not the month start: a
single January 15 timestamp produces the single label January 31 (a label
whose day is not 1). -/
theorem C2_counterexample :
    occurencies_in_time [⟨2020, 1, 15, 10, 0, 0⟩] = [(⟨2020, 1, 31, 0, 0, 0⟩, 1)] ∧
    (⟨2020, 1, 31, 0, 0, 0⟩ : PyDateTime).day ≠ 1 :=
  ⟨rfl, by decide⟩

/-- Claim C2 (amended): for every non-empty timestamp column the result has
exactly one entry per calendar month from the minimum to the maximum
observed month inclusive, in order, with an explicit count of 0 for months
in which no row falls — but each entry is labelled with the END of its
month (its last calendar day), not the start. -/
theorem C2_amended (col : List PyDateTime) (h : col.isEmpty = false) :
    (occurencies_in_time col).length = maxMonth col - minMonth col + 1 ∧
    (occurencies_in_time col).map Prod.fst =
      (List.range (maxMonth col + 1 - minMonth col)).map
        (fun k => monthEndLabel (minMonth col + k)) ∧
    (∀ p ∈ occurencies_in_time col, p.2 = monthCount col (monthIndex p.1)) ∧
    (∀ i, minMonth col ≤ i → i ≤ maxMonth col →
      (monthEndLabel i, monthCount col i) ∈ occurencies_in_time col) := by
  have hne : col ≠ [] := by cases col <;> simp_all
  have hmm : minMonth col ≤ maxMonth col := by
    apply nat_getD_min?_le_getD_max?
    cases col <;> simp_all
  unfold occurencies_in_time
  simp only [h, Bool.false_eq_true, if_false]
  refine ⟨?_, ?_, ?_, ?_⟩
  · simp only [List.length_map, List.length_range]
    omega
  · simp [List.map_map]
  · intro p hp
    simp only [List.mem_map, List.mem_range] at hp
    obtain ⟨k, hk, rfl⟩ := hp
    simp [monthIndex_monthEndLabel]
  · intro i h1 h2
    simp only [List.mem_map, List.mem_range]
    refine ⟨i - minMonth col, by omega, ?_⟩
    have he : minMonth col + (i - minMonth col) = i := by omega
    rw [he]

/-- Claim C2 witness: the hypothesis of `C2_amended` holds for a column with
one January and one March 2020 timestamp; the conclusion then exhibits
February with count 0. -/
theorem C2_amended_witness :
    ([⟨2020, 1, 15, 10, 0, 0⟩, ⟨2020, 3, 10, 0, 0, 0⟩] : List PyDateTime).isEmpty = false ∧
    ((occurencies_in_time [⟨2020, 1, 15, 10, 0, 0⟩, ⟨2020, 3, 10, 0, 0, 0⟩]).length =
        maxMonth [⟨2020, 1, 15, 10, 0, 0⟩, ⟨2020, 3, 10, 0, 0, 0⟩] -
          minMonth [⟨2020, 1, 15, 10, 0, 0⟩, ⟨2020, 3, 10, 0, 0, 0⟩] + 1 ∧
      (occurencies_in_time [⟨2020, 1, 15, 10, 0, 0⟩, ⟨2020, 3, 10, 0, 0, 0⟩]).map Prod.fst =
        (List.range (maxMonth [⟨2020, 1, 15, 10, 0, 0⟩, ⟨2020, 3, 10, 0, 0, 0⟩] + 1 -
            minMonth [⟨2020, 1, 15, 10, 0, 0⟩, ⟨2020, 3, 10, 0, 0, 0⟩])).map
          (fun k => monthEndLabel
            (minMonth [⟨2020, 1, 15, 10, 0, 0⟩, ⟨2020, 3, 10, 0, 0, 0⟩] + k)) ∧
      (∀ p ∈ occurencies_in_time [⟨2020, 1, 15, 10, 0, 0⟩, ⟨2020, 3, 10, 0, 0, 0⟩],
        p.2 = monthCount [⟨2020, 1, 15, 10, 0, 0⟩, ⟨2020, 3, 10, 0, 0, 0⟩] (monthIndex p.1)) ∧
      (∀ i, minMonth [⟨2020, 1, 15, 10, 0, 0⟩, ⟨2020, 3, 10, 0, 0, 0⟩] ≤ i →
        i ≤ maxMonth [⟨2020, 1, 15, 10, 0, 0⟩, ⟨2020, 3, 10, 0, 0, 0⟩] →
        (monthEndLabel i,
          monthCount [⟨2020, 1, 15, 10, 0, 0⟩, ⟨2020, 3, 10, 0, 0, 0⟩] i) ∈
          occurencies_in_time [⟨2020, 1, 15, 10, 0, 0⟩, ⟨2020, 3, 10, 0, 0, 0⟩])) :=
  ⟨rfl, C2_amended _ rfl⟩

/-- Claim C3 (counterexample): the tie order of `value_counts` is not
first-occurrence order and is not a function of the column alone.  Both
`["a","b"]` and `["b","a"]` are admissible hash-table enumerations of the
distinct values of the column `["a","b"]` (each is a permutation of the
deduplicated column), yet they yield different outputs, and the second
yields `[("b",1),("a",1)]` — not the first-occurrence order.  Since the
hash order of Python strings is randomized per process, the output is not
byte-for-byte reproducible across runs on the same input. -/
theorem C3_counterexample :
    (["a", "b"] : List String).Perm (["a", "b"] : List String).dedup ∧
    (["b", "a"] : List String).Perm (["a", "b"] : List String).dedup ∧
    value_counts ["a", "b"] ["a", "b"] = [("a", 1), ("b", 1)] ∧
    value_counts ["b", "a"] ["a", "b"] = [("b", 1), ("a", 1)] ∧
    value_counts ["b", "a"] ["a", "b"] ≠ value_counts ["a", "b"] ["a", "b"] := by
  refine ⟨by decide, by decide, rfl, rfl, ?_⟩
  rw [show value_counts ["b", "a"] ["a", "b"] = [("b", 1), ("a", 1)] from rfl,
    show value_counts ["a", "b"] ["a", "b"] = [("a", 1), ("b", 1)] from rfl]
  simp

/-- Claim C3 (amended): for every column and every admissible hash-table
enumeration of its distinct values, `value_counts` is sorted by descending
count, every pair carries the exact multiplicity of its category in the
column, and the emitted categories are exactly the distinct values of the
column, each exactly once; the order among tied counts, however, follows
the hash-table enumeration — not first-occurrence order — and is therefore
not reproducible for string categories. -/
theorem C3_amended {α : Type} [DecidableEq α] (keyOrder col : List α)
    (hko : keyOrder.Perm col.dedup) :
    (value_counts keyOrder col).Pairwise countGe ∧
    (∀ p ∈ value_counts keyOrder col, p.2 = (col.filter (fun x => x = p.1)).length) ∧
    ((value_counts keyOrder col).map Prod.fst).Perm col.dedup ∧
    ((value_counts keyOrder col).map Prod.fst).Nodup ∧
    (∀ a, (∃ n, (a, n) ∈ value_counts keyOrder col) ↔ a ∈ col) := by
  have hperm : (value_counts keyOrder col).Perm
      (keyOrder.map (fun k => (k, (col.filter (fun x => x = k)).length))) :=
    List.perm_insertionSort _ _
  have hmapfst : ((value_counts keyOrder col).map Prod.fst).Perm keyOrder := by
    have h2 := hperm.map Prod.fst
    simpa [List.map_map, Function.comp_def] using h2
  refine ⟨List.sorted_insertionSort countGe _, ?_, hmapfst.trans hko, ?_, ?_⟩
  · intro p hp
    have h3 : p ∈ keyOrder.map (fun k => (k, (col.filter (fun x => x = k)).length)) :=
      hperm.mem_iff.1 hp
    simp only [List.mem_map] at h3
    obtain ⟨k, _, rfl⟩ := h3
    rfl
  · exact ((hmapfst.trans hko).symm).nodup (List.nodup_dedup col)
  · intro a
    constructor
    · rintro ⟨n, hn⟩
      have h3 : (a, n) ∈ keyOrder.map (fun k => (k, (col.filter (fun x => x = k)).length)) :=
        hperm.mem_iff.1 hn
      simp only [List.mem_map] at h3
      obtain ⟨k, hk, he⟩ := h3
      cases he
      exact List.mem_dedup.1 (hko.mem_iff.1 hk)
    · intro ha
      have hk : a ∈ keyOrder := hko.mem_iff.2 (List.mem_dedup.2 ha)
      refine ⟨(col.filter (fun x => x = a)).length, ?_⟩
      exact hperm.mem_iff.2 (List.mem_map.2 ⟨a, hk, rfl⟩)

/-- Claim C3 witness: the hypothesis of `C3_amended` holds for the hash
order `["x"]` and the column `["x","x"]`. -/
theorem C3_amended_witness :
    (["x"] : List String).Perm (["x", "x"] : List String).dedup ∧
    ((value_counts ["x"] ["x", "x"]).Pairwise countGe ∧
     (∀ p ∈ value_counts ["x"] ["x", "x"],
       p.2 = ((["x", "x"] : List String).filter (fun x => x = p.1)).length) ∧
     ((value_counts ["x"] ["x", "x"]).map Prod.fst).Perm (["x", "x"] : List String).dedup ∧
     ((value_counts ["x"] ["x", "x"]).map Prod.fst).Nodup ∧
     (∀ a, (∃ n, (a, n) ∈ value_counts ["x"] ["x", "x"]) ↔ a ∈ (["x", "x"] : List String))) :=
  ⟨by decide, C3_amended ["x"] ["x", "x"] (by decide)⟩

/-- Claim C7 (counterexample): with one `ACIDENTE` row in January 2020 and
one in March 2020, the single-key month series contains February 2020 with
count 0 — but the grouped (month, class) result contains NO row for
`(February 2020, "ACIDENTE")`, with count zero or otherwise: the multi-key
groupby emits only observed combinations.  The zero-count combination is
not representable in the grouped output. -/
theorem C7_counterexample :
    (monthEndLabel (monthIndex ⟨2020, 2, 1, 0, 0, 0⟩), 0) ∈
        occurencies_in_time [⟨2020, 1, 15, 0, 0, 0⟩, ⟨2020, 3, 10, 0, 0, 0⟩] ∧
    occurrence_in_time_by_class
        [(⟨2020, 1, 15, 0, 0, 0⟩, "ACIDENTE"), (⟨2020, 3, 10, 0, 0, 0⟩, "ACIDENTE")] =
      [((⟨2020, 1, 31, 0, 0, 0⟩, "ACIDENTE"), 1),
       ((⟨2020, 3, 31, 0, 0, 0⟩, "ACIDENTE"), 1)] ∧
    (occurrence_in_time_by_class
        [(⟨2020, 1, 15, 0, 0, 0⟩, "ACIDENTE"), (⟨2020, 3, 10, 0, 0, 0⟩, "ACIDENTE")]).filter
      (fun e => e.1 = (⟨2020, 2, 29, 0, 0, 0⟩, "ACIDENTE")) = [] :=
  ⟨by decide, rfl, rfl⟩

/-- Claim C7 (amended): the grouped result contains exactly one entry per
OBSERVED (month, class) pair — labelled with the month end and carrying the
pair's positive multiplicity — and its category set is exactly the set of
distinct observed classes; but unobserved combinations, even for months
present in the single-key result, are omitted rather than listed with
count 0. -/
theorem C7_amended (rows : List (PyDateTime × String)) :
    (∀ e ∈ occurrence_in_time_by_class rows,
      ∃ r ∈ rows, (monthEndLabel (monthIndex r.1), r.2) = e.1 ∧
        e.2 = (rows.filter (fun r2 =>
          (monthIndex r2.1, r2.2) = (monthIndex r.1, r.2))).length ∧ 0 < e.2) ∧
    (∀ r ∈ rows,
      ((monthEndLabel (monthIndex r.1), r.2),
        (rows.filter (fun r2 =>
          (monthIndex r2.1, r2.2) = (monthIndex r.1, r.2))).length) ∈
        occurrence_in_time_by_class rows) ∧
    ((occurrence_in_time_by_class rows).map Prod.fst).Nodup ∧
    (∀ c, (∃ e ∈ occurrence_in_time_by_class rows, e.1.2 = c) ↔ ∃ r ∈ rows, r.2 = c) := by
  unfold occurrence_in_time_by_class
  set keys := (rows.map (fun r => (monthIndex r.1, r.2))).dedup with hkeys
  have hperm : (List.insertionSort keyLe keys).Perm keys := List.perm_insertionSort _ _
  have hmemkeys : ∀ k, k ∈ keys ↔ ∃ r ∈ rows, (monthIndex r.1, r.2) = k := by
    intro k
    rw [hkeys]
    constructor
    · intro hk
      simpa [List.mem_map] using List.mem_dedup.1 hk
    · rintro ⟨r, hr, he⟩
      exact List.mem_dedup.2 (List.mem_map.2 ⟨r, hr, he⟩)
  refine ⟨?_, ?_, ?_, ?_⟩
  · intro e he
    simp only [List.mem_map] at he
    obtain ⟨k, hk, rfl⟩ := he
    obtain ⟨r, hr, hre⟩ := (hmemkeys k).1 (hperm.mem_iff.1 hk)
    subst hre
    refine ⟨r, hr, rfl, rfl, ?_⟩
    have hm : r ∈ rows.filter (fun r2 =>
        (monthIndex r2.1, r2.2) = (monthIndex r.1, r.2)) :=
      List.mem_filter.2 ⟨hr, by simp⟩
    exact List.length_pos.2 (List.ne_nil_of_mem hm)
  · intro r hr
    simp only [List.mem_map]
    exact ⟨(monthIndex r.1, r.2),
      hperm.mem_iff.2 ((hmemkeys _).2 ⟨r, hr, rfl⟩), rfl⟩
  · have hinj : Function.Injective
        (fun k : ℕ × String => (monthEndLabel k.1, k.2)) := by
      intro a b hab
      simp only [Prod.mk.injEq] at hab
      obtain ⟨h1, h2⟩ := hab
      have h3 : a.1 = b.1 := by
        have ha := monthIndex_monthEndLabel a.1
        have hb := monthIndex_monthEndLabel b.1
        rw [← ha, ← hb, h1]
      exact Prod.ext_iff.2 ⟨h3, h2⟩
    have hnd : (List.insertionSort keyLe keys).Nodup :=
      (hperm.symm).nodup (List.nodup_dedup _)
    rw [List.map_map]
    exact hnd.map hinj
  · intro c
    constructor
    · rintro ⟨e, he, hce⟩
      simp only [List.mem_map] at he
      obtain ⟨k, hk, rfl⟩ := he
      obtain ⟨r, hr, hre⟩ := (hmemkeys k).1 (hperm.mem_iff.1 hk)
      subst hre
      exact ⟨r, hr, by simpa using hce⟩
    · rintro ⟨r, hr, rfl⟩
      refine ⟨((monthEndLabel (monthIndex r.1), r.2),
        (rows.filter (fun r2 =>
          (monthIndex r2.1, r2.2) = (monthIndex r.1, r.2))).length), ?_, rfl⟩
      simp only [List.mem_map]
      exact ⟨(monthIndex r.1, r.2),
        hperm.mem_iff.2 ((hmemkeys _).2 ⟨r, hr, rfl⟩), rfl⟩

theorem digitChar_isDigit {n : ℕ} (h : n < 10) : (digitChar n).isDigit = true := by
  interval_cases n <;> decide

theorem digitVal_digitChar {n : ℕ} (h : n < 10) : digitVal (digitChar n) = n := by
  interval_cases n <;> decide

theorem parseDay_pad2 {d : ℕ} (h1 : 1 ≤ d) (h2 : d ≤ 31) (rest : List Char) :
    parseDay ((pad2 d).data ++ rest) = some (d, rest) := by
  interval_cases d <;> simp +decide [pad2, digitChar, parseDay, digitVal]

theorem parseMonth_pad2 {m : ℕ} (h1 : 1 ≤ m) (h2 : m ≤ 12) (rest : List Char) :
    parseMonth ((pad2 m).data ++ rest) = some (m, rest) := by
  interval_cases m <;> simp +decide [pad2, digitChar, parseMonth, digitVal]

theorem parseYear_pad4 {y : ℕ} (h : y ≤ 9999) (rest : List Char) :
    parseYear ((pad4 y).data ++ rest) = some (y, rest) := by
  have h1 : y / 1000 < 10 := by omega
  have h2 : y / 100 % 10 < 10 := Nat.mod_lt _ (by norm_num)
  have h3 : y / 10 % 10 < 10 := Nat.mod_lt _ (by norm_num)
  have h4 : y % 10 < 10 := Nat.mod_lt _ (by norm_num)
  show parseYear (digitChar (y / 1000) :: digitChar (y / 100 % 10) ::
    digitChar (y / 10 % 10) :: digitChar (y % 10) :: rest) = some (y, rest)
  simp only [parseYear, digitChar_isDigit h1, digitChar_isDigit h2, digitChar_isDigit h3,
    digitChar_isDigit h4, Bool.and_self, if_true, digitVal_digitChar h1,
    digitVal_digitChar h2, digitVal_digitChar h3, digitVal_digitChar h4,
    Option.some.injEq, Prod.mk.injEq]
  exact ⟨by omega, trivial⟩

theorem daysInMonth_le_31 (y m : ℕ) : daysInMonth y m ≤ 31 := by
  unfold daysInMonth
  split_ifs <;> norm_num

theorem strptime_render {y m d : ℕ} (h : ValidDate y m d) :
    strptime_dmY_HMS (renderDate d m y ++ " " ++ "00:00:00") = some ⟨y, m, d, 0, 0, 0⟩ := by
  obtain ⟨h1, h2, h3, h4, h5, h6⟩ := h
  have hd31 : d ≤ 31 := le_trans h6 (daysInMonth_le_31 y m)
  have hdata : (renderDate d m y ++ " " ++ "00:00:00").data =
      (pad2 d).data ++ '/' :: ((pad2 m).data ++ '/' :: ((pad4 y).data ++
        (' ' :: "00:00:00".data))) := by
    simp [renderDate, String.data_append]
  unfold strptime_dmY_HMS
  rw [hdata, parseDay_pad2 h5 hd31]
  simp only [Option.bind_eq_bind, Option.some_bind]
  rw [show parseLit '/' ('/' :: ((pad2 m).data ++ '/' :: ((pad4 y).data ++
    (' ' :: "00:00:00".data)))) = some ((pad2 m).data ++ '/' :: ((pad4 y).data ++
    (' ' :: "00:00:00".data))) from rfl]
  simp only [Option.some_bind]
  rw [parseMonth_pad2 h3 h4]
  simp only [Option.some_bind]
  rw [show parseLit '/' ('/' :: ((pad4 y).data ++ (' ' :: "00:00:00".data))) =
    some ((pad4 y).data ++ (' ' :: "00:00:00".data)) from rfl]
  simp only [Option.some_bind]
  rw [parseYear_pad4 h2]
  simp only [Option.some_bind]
  show mkDatetime y m d 0 0 0 = some ⟨y, m, d, 0, 0, 0⟩
  unfold mkDatetime
  rw [if_pos]
  exact ⟨h1, h2, h3, h4, h5, h6, by norm_num, by norm_num, by norm_num⟩

/-- Claim C8 (confirmed): merging a date with a non-string time cell
substitutes the literal `"00:00:00"`, so it agrees with merging with the
explicit string `"00:00:00"` for every date string; and for every
calendar-valid day/month/year, merging its `dd/mm/yyyy` rendering with an
absent time yields exactly midnight of that date. -/
theorem C8_holds (dia : String) (hora : PyVal) (hns : hora.isStr = false)
    (d m y : ℕ) (h : ValidDate y m d) :
    ocorrencia_data dia hora = ocorrencia_data dia (.pstr "00:00:00") ∧
    ocorrencia_data (renderDate d m y) hora = some ⟨y, m, d, 0, 0, 0⟩ := by
  have hsub : ∀ s : String,
      ocorrencia_data s hora = ocorrencia_data s (.pstr "00:00:00") := by
    intro s
    cases hora with
    | pstr s2 => simp [PyVal.isStr] at hns
    | pfloat x => rfl
    | pint n => rfl
    | pnone => rfl
  refine ⟨hsub dia, ?_⟩
  rw [hsub (renderDate d m y)]
  exact strptime_render ⟨h.1, h.2.1, h.2.2.1, h.2.2.2.1, h.2.2.2.2.1, h.2.2.2.2.2⟩

/-- Claim C8 witness: the hypotheses of `C8_holds` hold for the date
`05/06/2021` with the time cell `None`. -/
theorem C8_holds_witness :
    (PyVal.pnone).isStr = false ∧ ValidDate 2021 6 5 ∧
    (ocorrencia_data "05/06/2021" .pnone =
        ocorrencia_data "05/06/2021" (.pstr "00:00:00") ∧
     ocorrencia_data (renderDate 5 6 2021) .pnone = some ⟨2021, 6, 5, 0, 0, 0⟩) :=
  ⟨rfl, by decide, C8_holds "05/06/2021" .pnone rfl 5 6 2021 (by decide)⟩

end Cenipa
